import Mathlib

/-!
# Verification of the deep-slack due-schedule evaluation and delivery pipeline

Shallow embedding of the core pipeline of the repository:

* `is_schedule_due`        (src/deep_slack/main.py, `FirebaseClient.is_schedule_due`)
* `execute_research_job`   (src/deep_slack/main.py, `FirebaseClient.execute_research_job`)
* `process_due_schedules`  (src/deep_slack/main.py, `FirebaseClient.process_due_schedules`)
* `add_to_outbox`, `update_last_run`, `get_undelivered_messages`, `mark_message_delivered`
                           (src/deep_slack/main.py)
* `deliver_outbox_messages` (src/slack.py)
* `validate_prompt`, `format_for_slack`
                           (src/deep_slack/main.py, `OpenAIResearchClient`), together with
                           the older variant in src/openai_client.py (`format_for_slack_v0`).

Modelling conventions.  Instants are natural numbers counting minutes since the Unix
epoch (the finest granularity of the five-field recurrence format).  The external
collaborators (the cron library, the timezone database, the document store, the research
engine and the messaging surface) are modelled by their contracts from the specification:
the cron library's previous-occurrence query is the most recent matching instant at or
before `now`; the timezone database maps a known zone name to a UTC offset in minutes;
store writes either apply atomically or fail; the research engine returns text or raises.
Python exceptions are modelled with `Except`; a `try/except` block that logs and returns
is modelled by mapping the error case to the fallback value.
-/

namespace DeepSlack

/-! ## Recurrence expressions (five-field cron patterns, spec §6) -/

/-- One field of a five-field recurrence expression: `*`, a literal integer, a
comma-separated list, or a `start-end` range (spec §6). -/
inductive CronField where
  | star : CronField
  | lit (n : Nat) : CronField
  | vals (ns : List Nat) : CronField
  | range (lo hi : Nat) : CronField
deriving DecidableEq

/-- A five-field recurrence expression `minute hour day-of-month month day-of-week`. -/
structure CronExpr where
  minute : CronField
  hour : CronField
  dom : CronField
  month : CronField
  dow : CronField
deriving DecidableEq

/-- Whether a cron field accepts the calendar value `v`. -/
def CronField.matchesVal : CronField → Int → Bool
  | .star, _ => true
  | .lit n, v => (n : Int) == v
  | .vals ns, v => ns.any fun n => (n : Int) == v
  | .range lo hi, v => (lo : Int) ≤ v && v ≤ (hi : Int)

/-- Whether a cron field is within the bounds `lo..hi` accepted by the recurrence
parser for its position. -/
def CronField.inBounds (lo hi : Nat) : CronField → Bool
  | .star => true
  | .lit n => lo ≤ n && n ≤ hi
  | .vals ns => !ns.isEmpty && ns.all fun n => lo ≤ n && n ≤ hi
  | .range a b => lo ≤ a && a ≤ b && b ≤ hi

/-- Whether every field of the expression is within the bounds the recurrence parser
accepts (minute 0-59, hour 0-23, day-of-month 1-31, month 1-12, day-of-week 0-6). -/
def CronExpr.wellFormed (e : CronExpr) : Bool :=
  e.minute.inBounds 0 59 && e.hour.inBounds 0 23 && e.dom.inBounds 1 31 &&
    e.month.inBounds 1 12 && e.dow.inBounds 0 6

/-! ## Calendar decomposition of an instant -/

/-- Civil date `(year, month, day)` from a count of days since 1970-01-01
(proleptic Gregorian calendar, standard days-to-civil algorithm). -/
def civilFromDays (z0 : Int) : Int × Int × Int :=
  let z := z0 + 719468
  let era := z.ediv 146097
  let doe := z - era * 146097
  let yoe := (doe - doe.ediv 1460 + doe.ediv 36524 - doe.ediv 146096).ediv 365
  let y := yoe + era * 400
  let doy := doe - (365 * yoe + yoe.ediv 4 - yoe.ediv 100)
  let mp := (5 * doy + 2).ediv 153
  let d := doy - (153 * mp + 2).ediv 5 + 1
  let m := if mp < 10 then mp + 3 else mp - 9
  (if m ≤ 2 then y + 1 else y, m, d)

/-- Whether the instant `t` (minutes since epoch, UTC), viewed in a timezone whose UTC
offset is `offset` minutes, matches the recurrence expression `e`.  Day-of-week `0` is
Sunday; 1970-01-01 was a Thursday (day-of-week `4`). -/
def cronMatches (e : CronExpr) (offset : Int) (t : Nat) : Bool :=
  let l : Int := (t : Int) + offset
  let days := l.ediv 1440
  let ymd := civilFromDays days
  e.minute.matchesVal (l.emod 60) && e.hour.matchesVal ((l.ediv 60).emod 24) &&
    e.dom.matchesVal ymd.2.2 && e.month.matchesVal ymd.2.1 &&
    e.dow.matchesVal ((days + 4).emod 7)

/-- The previous occurrence of the recurrence pattern: the most recent instant at or
before `now`, in the given timezone, matching the expression; `none` when no instant up
to `now` matches (the cron library's previous-occurrence query, spec §4.1). -/
def prevOccurrence (e : CronExpr) (offset : Int) (now : Nat) : Option Nat :=
  if cronMatches e offset (Nat.findGreatest (fun t => cronMatches e offset t = true) now) then
    some (Nat.findGreatest (fun t => cronMatches e offset t = true) now)
  else
    none

theorem prevOccurrence_spec {e : CronExpr} {offset : Int} {now p : Nat}
    (h : prevOccurrence e offset now = some p) :
    cronMatches e offset p = true ∧ p ≤ now ∧
      ∀ t, t ≤ now → cronMatches e offset t = true → t ≤ p := by
  unfold prevOccurrence at h
  split at h
  · next hm =>
    cases h
    exact ⟨hm, Nat.findGreatest_le now, fun t ht hmt => Nat.le_findGreatest ht hmt⟩
  · exact absurd h (by simp)

/-! ## Raw schedule inputs: recurrence text and timezone name -/

/-- The stored recurrence text as the cron library sees it: either a five-field
expression it can interpret, or text it rejects. -/
inductive RawCron where
  | expr (e : CronExpr) : RawCron
  | malformed : RawCron
deriving DecidableEq

/-- A stored timezone name: a known IANA name, modelled by its UTC offset in minutes,
or a name the timezone database rejects. -/
inductive Tz where
  | name (offsetMinutes : Int) : Tz
  | unknownName : Tz
deriving DecidableEq

/-- The default timezone `"UTC"`. -/
def Tz.utc : Tz := .name 0

/-- An error raised while evaluating whether a schedule is due. -/
inductive EvalError where
  | badCron : EvalError
  | badTz : EvalError
  | noOccurrence : EvalError
deriving DecidableEq

/-- The call `croniter(cron_schedule, now)`: interpreting the stored recurrence text, raising
`CroniterBadCronError` on text or field values the parser rejects. -/
def parseCron : RawCron → Except EvalError CronExpr
  | .expr e => if e.wellFormed then .ok e else .error .badCron
  | .malformed => .error .badCron

/-- The call `pytz.timezone(timezone_str)`: looking up a timezone name, raising
`UnknownTimeZoneError` for names the database does not know. -/
def lookupTz : Tz → Except EvalError Int
  | .name o => .ok o
  | .unknownName => .error .badTz

/-! ## Data model (spec §3) -/

/-- A schedule record as stored in the `schedules` collection
(src/deep_slack/main.py, `save_schedule`). -/
structure Schedule where
  id : String
  workspace_id : String
  user_id : String
  channel_id : String
  prompt : String
  cron_schedule : RawCron
  timezone : Option Tz
  last_run : Option Nat
  active : Bool
deriving DecidableEq

/-- An outbox message record as stored in the `outbox` collection
(src/deep_slack/main.py, `add_to_outbox`). -/
structure OutboxMessage where
  id : Nat
  workspace_id : String
  channel_id : String
  message : String
  created_at : Nat
  delivered : Bool
deriving DecidableEq

/-- The durable store: the `schedules` and `outbox` collections, plus the counter the
store uses to assign fresh document ids. -/
structure Store where
  schedules : List Schedule
  outbox : List OutboxMessage
  nextMessageId : Nat
deriving DecidableEq

/-! ## Due evaluation (src/deep_slack/main.py, `is_schedule_due`) -/

/-- The test `last_run is None or last_run < prev_time` (src/deep_slack/main.py line 210). -/
def lastRunAllows (last_run : Option Nat) (prev : Nat) : Bool :=
  match last_run with
  | none => true
  | some lr => decide (lr < prev)

/-- The body of `FirebaseClient.is_schedule_due` (src/deep_slack/main.py lines
194-214) before the enclosing `try/except`: look up the schedule's timezone
(default `"UTC"`), interpret the recurrence text, take the previous occurrence at or
before `now`, and report due iff `now >= prev_time` and (`last_run` is `None` or
`last_run < prev_time`). -/
def is_schedule_due_checked (schedule : Schedule) (now : Nat) : Except EvalError Bool :=
  match lookupTz (schedule.timezone.getD Tz.utc) with
  | .error err => .error err
  | .ok offset =>
    match parseCron schedule.cron_schedule with
    | .error err => .error err
    | .ok e =>
      match prevOccurrence e offset now with
      | none => .error .noOccurrence
      | some prev =>
        if now ≥ prev then
          if lastRunAllows schedule.last_run prev then .ok true else .ok false
        else .ok false

/-- Embeds `FirebaseClient.is_schedule_due` (src/deep_slack/main.py lines 192-218): the
checked evaluation wrapped in `try/except`, returning `False` when any step raises. -/
def is_schedule_due (schedule : Schedule) (now : Nat) : Bool :=
  match is_schedule_due_checked schedule now with
  | .ok b => b
  | .error _ => false

/-! ## Prompt validation and formatting (src/deep_slack/main.py, `OpenAIResearchClient`) -/

/-- Python's `str.strip()`: remove whitespace from both ends. -/
def stripChars (l : List Char) : List Char :=
  ((l.dropWhile Char.isWhitespace).reverse.dropWhile Char.isWhitespace).reverse

/-- Python's `str.lower()`: lowercase every character. -/
def toLowerChars (l : List Char) : List Char :=
  l.map Char.toLower

/-- Python's `needle in hay` on strings: `needle` occurs as a contiguous substring. -/
def subList (needle : List Char) : List Char → Bool
  | [] => needle.isEmpty
  | c :: rest => needle.isPrefixOf (c :: rest) || subList needle rest

/-- The disallowed terms of `validate_prompt` (src/deep_slack/main.py line 103). -/
def forbidden_keywords : List String := ["hack", "illegal", "harmful"]

/-- Embeds `OpenAIResearchClient.validate_prompt` (src/deep_slack/main.py lines 98-107):
reject an empty prompt, a prompt whose stripped length is below 10, or a prompt whose
lowercased text contains a disallowed term as a substring. -/
def validate_prompt (prompt : String) : Bool :=
  if prompt.data.isEmpty || (stripChars prompt.data).length < 10 then
    false
  else if forbidden_keywords.any (fun keyword => subList keyword.data (toLowerChars prompt.data)) then
    false
  else
    true

/-- Python's `str.replace(pat, rep)` for a non-empty pattern, with explicit fuel to
keep the recursion structural: each step consumes at least one character, so fuel
equal to the input length is always enough.  Occurrences are replaced
non-overlapping, left to right. -/
def replaceListAux (pat rep : List Char) : Nat → List Char → List Char
  | _, [] => []
  | 0, l => l
  | fuel + 1, c :: rest =>
    if !pat.isEmpty && pat.isPrefixOf (c :: rest) then
      rep ++ replaceListAux pat rep fuel ((c :: rest).drop pat.length)
    else
      c :: replaceListAux pat rep fuel rest

/-- Python's `str.replace(pat, rep)`: replace non-overlapping occurrences of `pat`
left to right (for the empty pattern this model leaves the text unchanged; every
pattern the code uses is non-empty). -/
def replaceList (pat rep l : List Char) : List Char :=
  replaceListAux pat rep l.length l

/-- Embeds `OpenAIResearchClient.format_for_slack` (src/deep_slack/main.py lines 89-96):
translate markdown heading markers `### `, `## `, `# ` and bold `**` to Slack `*`, then
prepend the fixed header. -/
def format_for_slack (content : String) : String :=
  let f1 := replaceList "### ".data "*".data content.data
  let f2 := replaceList "## ".data "*".data f1
  let f3 := replaceList "# ".data "*".data f2
  let f4 := replaceList "**".data "*".data f3
  String.mk ("🔬 *Deep Research Results* 🔬\n\n".data ++ f4)

/-- Embeds `OpenAIResearchClient.format_for_slack` as written in src/openai_client.py lines
102-129: the same heading and bold translation, then additionally `*` to `_`, and a
header whose microscope emoji is stored double-encoded in that file (bytes
`c3 b0 c5 b8 e2 80 9d c2 ac`, the characters `U+00F0 U+0178 U+201D U+00AC`). -/
def format_for_slack_v0 (content : String) : String :=
  let f1 := replaceList "### ".data "*".data content.data
  let f2 := replaceList "## ".data "*".data f1
  let f3 := replaceList "# ".data "*".data f2
  let f4 := replaceList "**".data "*".data f3
  let f5 := replaceList "*".data "_".data f4
  String.mk (("ðŸ”¬ *Deep Research Results* ðŸ”¬\n\n").data ++ f5)

/-! ## The world of external collaborators

One dispatcher or delivery cycle interacts with the research engine, the document
store's write paths, the messaging surface and the clock.  A `World` fixes the
behaviour of each for the cycle: the engine's response per prompt (after its internal
retries, spec §4.3), whether the store's outbox insert or last-run update raises,
which message posts succeed, and the current instant. -/
structure World where
  engine : String → Except String String
  outboxAddFails : Bool
  updateLastRunFails : Bool
  postSucceeds : Nat → Bool
  now : Nat

/-! ## Store operations (src/deep_slack/main.py) -/

/-- Embeds `FirebaseClient.add_to_outbox` (src/deep_slack/main.py lines 221-236): insert an
undelivered outbox document stamped with the server time; the enclosing `try/except`
swallows a failed insert, leaving the store unchanged. -/
def add_to_outbox (w : World) (st : Store) (workspace_id channel_id message : String) :
    Store :=
  if w.outboxAddFails then
    st
  else
    { st with
      outbox := st.outbox ++
        [{ id := st.nextMessageId, workspace_id := workspace_id, channel_id := channel_id,
           message := message, created_at := w.now, delivered := false }],
      nextMessageId := st.nextMessageId + 1 }

/-- Embeds `FirebaseClient.update_last_run` (src/deep_slack/main.py lines 174-182): set the
schedule's `last_run`; the enclosing `try/except` swallows a failed update, leaving the
store unchanged. -/
def update_last_run (w : World) (st : Store) (schedule_id : String) (timestamp : Nat) :
    Store :=
  if w.updateLastRunFails then
    st
  else
    { st with
      schedules := st.schedules.map fun s =>
        if s.id = schedule_id then { s with last_run := some timestamp } else s }

/-- Embeds `FirebaseClient.get_active_schedules` (src/deep_slack/main.py lines 156-172):
all schedules with `active == True`. -/
def get_active_schedules (st : Store) : List Schedule :=
  st.schedules.filter fun s => s.active

/-- Embeds `FirebaseClient.mark_message_delivered` (src/deep_slack/main.py lines 315-323):
set the `delivered` flag of the outbox document with the given id. -/
def mark_message_delivered (st : Store) (message_id : Nat) : Store :=
  { st with
    outbox := st.outbox.map fun m =>
      if m.id = message_id then { m with delivered := true } else m }

/-! ## Job execution and dispatch (src/deep_slack/main.py) -/

/-- Embeds `FirebaseClient.execute_research_job` (src/deep_slack/main.py lines 266-295):
validate the prompt (invalid: log and return with no side effects), call the research
engine (an error propagates to the enclosing `try/except`, which logs and returns),
format the result, enqueue it to the outbox, and advance `last_run` to the current
instant. -/
def execute_research_job (w : World) (st : Store) (schedule : Schedule) : Store :=
  if !validate_prompt schedule.prompt then
    st
  else
    match w.engine schedule.prompt with
    | .error _ => st
    | .ok research_result =>
      let formatted_message := format_for_slack research_result
      let st1 := add_to_outbox w st schedule.workspace_id schedule.channel_id
        formatted_message
      update_last_run w st1 schedule.id w.now

/-- Embeds `FirebaseClient.process_due_schedules` (src/deep_slack/main.py lines 238-263):
walk the active schedules, execute each due one, and count the due ones. -/
def process_due_schedules (w : World) (st : Store) : Store × Nat :=
  (get_active_schedules st).foldl
    (fun acc schedule =>
      if is_schedule_due schedule w.now then
        (execute_research_job w acc.1 schedule, acc.2 + 1)
      else
        acc)
    (st, 0)

/-! ## Outbox delivery (src/deep_slack/main.py and src/slack.py) -/

/-- Ordering of outbox messages by their server-assigned creation time. -/
def msgLE (a b : OutboxMessage) : Prop := a.created_at ≤ b.created_at

instance : DecidableRel msgLE := fun a b => Nat.decLe a.created_at b.created_at

instance : IsTotal OutboxMessage msgLE := ⟨fun a b => Nat.le_total a.created_at b.created_at⟩

instance : IsTrans OutboxMessage msgLE := ⟨fun _ _ _ => Nat.le_trans⟩

/-- Embeds `FirebaseClient.get_undelivered_messages` (src/deep_slack/main.py lines 297-313):
the outbox documents with `delivered == False`, ordered by `created_at`. -/
def get_undelivered_messages (st : Store) : List OutboxMessage :=
  List.insertionSort msgLE (st.outbox.filter fun m => !m.delivered)

/-- Embeds `deliver_outbox_messages` (src/slack.py lines 325-356): fetch the undelivered
messages in creation order and attempt each; a successful post marks the message
delivered, a failed post is logged and leaves it undelivered. -/
def deliver_outbox_messages (w : World) (st : Store) : Store :=
  (get_undelivered_messages st).foldl
    (fun acc m =>
      if w.postSucceeds m.id then mark_message_delivered acc m.id else acc)
    st

/-! ## Concrete fixtures used by the witnesses -/

/-- The recurrence expression whose five fields are all `*`. -/
def cronEveryMinute : CronExpr :=
  { minute := .star, hour := .star, dom := .star, month := .star, dow := .star }

/-- A stored schedule with a valid prompt and an all-star recurrence, last run at
instant 2. -/
def exSchedule : Schedule :=
  { id := "sched-1", workspace_id := "W1", user_id := "U1", channel_id := "CH1",
    prompt := "Latest trends in artificial intelligence", cron_schedule := .expr cronEveryMinute,
    timezone := some (.name 0), last_run := some 2, active := true }

/-- A store holding just `exSchedule` and an empty outbox. -/
def exStore : Store :=
  { schedules := [exSchedule], outbox := [], nextMessageId := 0 }

/-- A cycle in which the research engine fails every call. -/
def exWorldEngineDown : World :=
  { engine := fun _ => .error "research call failed", outboxAddFails := false,
    updateLastRunFails := false, postSucceeds := fun _ => true, now := 3 }

/-- A cycle in which the engine answers but the outbox insert raises. -/
def exWorldOutboxDown : World :=
  { engine := fun _ => .ok "result text", outboxAddFails := true,
    updateLastRunFails := false, postSucceeds := fun _ => true, now := 3 }

/-- A cycle in which every collaborator behaves. -/
def exWorldOk : World :=
  { engine := fun _ => .ok "Hello world", outboxAddFails := false,
    updateLastRunFails := false, postSucceeds := fun _ => true, now := 3 }

/-! ## Helper lemmas -/

theorem lastRunAllows_eq_true (lr : Option Nat) (prev : Nat) :
    lastRunAllows lr prev = true ↔ (lr = none ∨ ∃ x, lr = some x ∧ x < prev) := by
  cases lr <;> simp [lastRunAllows]

/-! ## Claims about due evaluation -/

/-- C1: for every recurrence expression, timezone, optional `last_run` and instant
`now`, when every evaluation step succeeds, `is_schedule_due` returns true iff
`now >= prev_scheduled_instant` and (`last_run` is null or
`last_run < prev_scheduled_instant`), where `prev_scheduled_instant` is the most
recent instant at or before `now`, in the schedule's timezone, matching the
expression; in particular `last_run = prev_scheduled_instant` yields false (strict
inequality) and any `last_run` strictly before it yields true. -/
theorem is_schedule_due_iff_prev (s : Schedule) (now : Nat) (e : CronExpr) (offset : Int)
    (prev : Nat)
    (htz : lookupTz (s.timezone.getD Tz.utc) = .ok offset)
    (hparse : parseCron s.cron_schedule = .ok e)
    (hprev : prevOccurrence e offset now = some prev) :
    (cronMatches e offset prev = true ∧ prev ≤ now ∧
        ∀ t, t ≤ now → cronMatches e offset t = true → t ≤ prev) ∧
      (is_schedule_due s now = true ↔
        (now ≥ prev ∧ (s.last_run = none ∨ ∃ lr, s.last_run = some lr ∧ lr < prev))) := by
  refine ⟨prevOccurrence_spec hprev, ?_⟩
  have hle : prev ≤ now := (prevOccurrence_spec hprev).2.1
  unfold is_schedule_due is_schedule_due_checked
  simp only [htz, hparse, hprev]
  simp only [ge_iff_le, hle, if_true, true_and]
  rw [← lastRunAllows_eq_true s.last_run prev]
  by_cases hl : lastRunAllows s.last_run prev <;> simp [hl]

/-- Witness for C1 at a concrete input: an all-star schedule last run at instant 2,
evaluated at instant 3 (previous occurrence 3), is due. -/
theorem is_schedule_due_iff_prev_witness : is_schedule_due exSchedule 3 = true :=
  (is_schedule_due_iff_prev exSchedule 3 cronEveryMinute 0 3 rfl rfl (by decide)).2.mpr
    ⟨by decide, Or.inr ⟨2, rfl, by decide⟩⟩

/-- C4: for every schedule whose recurrence the cron parser rejects, `is_schedule_due`
returns false (fails closed) rather than propagating the error. -/
theorem is_schedule_due_invalid_cron (s : Schedule) (now : Nat) (err : EvalError)
    (h : parseCron s.cron_schedule = .error err) :
    is_schedule_due s now = false := by
  unfold is_schedule_due is_schedule_due_checked
  cases htz : lookupTz (s.timezone.getD Tz.utc) <;> simp [h]

/-- Witness for C4 at a concrete input: a schedule whose stored recurrence text the
parser rejects is reported not due. -/
theorem is_schedule_due_invalid_cron_witness :
    is_schedule_due { exSchedule with cron_schedule := .malformed } 3 = false :=
  is_schedule_due_invalid_cron { exSchedule with cron_schedule := .malformed } 3 .badCron rfl

/-- C8: due evaluation is a pure, deterministic function of its declared inputs:
two evaluations whose recurrence expression, timezone, `last_run` and `now` agree
yield the same result, whatever the schedules' other fields. -/
theorem is_schedule_due_deterministic (s1 s2 : Schedule) (n1 n2 : Nat)
    (hc : s1.cron_schedule = s2.cron_schedule) (ht : s1.timezone = s2.timezone)
    (hl : s1.last_run = s2.last_run) (hn : n1 = n2) :
    is_schedule_due s1 n1 = is_schedule_due s2 n2 := by
  unfold is_schedule_due is_schedule_due_checked
  rw [hc, ht, hl, hn]

/-- Witness for C8 at a concrete input: two schedules sharing recurrence, timezone,
`last_run` and `now` but differing in id, owner, channel, prompt and active flag
evaluate identically. -/
theorem is_schedule_due_deterministic_witness :
    is_schedule_due exSchedule 3 =
      is_schedule_due
        { exSchedule with
          id := "sched-2", user_id := "U2", channel_id := "CH2",
          prompt := "ab", active := false } 3 :=
  is_schedule_due_deterministic _ _ 3 3 rfl rfl rfl rfl

/-! ## Claims about job execution -/

/-- C2: for every schedule and every error raised by the research engine call,
`execute_research_job` leaves the store exactly as it was: no outbox enqueue, no
`last_run` advance, so the schedule remains due on the next dispatcher cycle. -/
theorem execute_research_job_engine_error (w : World) (st : Store) (s : Schedule)
    (err : String) (h : w.engine s.prompt = .error err) :
    execute_research_job w st s = st := by
  unfold execute_research_job
  cases hv : validate_prompt s.prompt <;> simp [hv, h]

/-- Witness for C2 at a concrete input: with the engine failing every call, executing
the example schedule leaves the example store unchanged. -/
theorem execute_research_job_engine_error_witness :
    execute_research_job exWorldEngineDown exStore exSchedule = exStore :=
  execute_research_job_engine_error exWorldEngineDown exStore exSchedule
    "research call failed" rfl

/-- C3: for every schedule whose prompt fails validation, `execute_research_job`
returns with no side effects, whatever the engine and store would have done: the
result is the unchanged store for every world, so in particular the outbox is
unchanged, `last_run` is unchanged and the research engine is never consulted. -/
theorem execute_research_job_invalid_prompt (s : Schedule)
    (h : validate_prompt s.prompt = false) :
    ∀ (w : World) (st : Store), execute_research_job w st s = st := by
  intro w st
  unfold execute_research_job
  simp [h]

/-- Witness for C3 at a concrete input: the prompt `"ab"` fails validation and the
executor leaves the store unchanged. -/
theorem execute_research_job_invalid_prompt_witness :
    validate_prompt "ab" = false ∧
      execute_research_job exWorldOk exStore { exSchedule with prompt := "ab" } = exStore :=
  ⟨by decide,
    execute_research_job_invalid_prompt { exSchedule with prompt := "ab" } (by decide)
      exWorldOk exStore⟩

/-- C9: when the outbox insert raises, `add_to_outbox` swallows the failure and
`execute_research_job` still advances `last_run` to the current instant: the whole
execution equals a bare `update_last_run`, the outbox is unchanged, and (when the
`last_run` write itself succeeds) the schedule's marker is set to `now` with no
message enqueued — the occurrence's result is lost (at-most-once for this failure
mode). -/
theorem execute_research_job_outbox_failure (w : World) (st : Store) (s : Schedule)
    (r : String) (hfail : w.outboxAddFails = true)
    (hvalid : validate_prompt s.prompt = true)
    (hengine : w.engine s.prompt = .ok r) :
    execute_research_job w st s = update_last_run w st s.id w.now ∧
      (execute_research_job w st s).outbox = st.outbox ∧
      (w.updateLastRunFails = false →
        (execute_research_job w st s).schedules =
          st.schedules.map fun x =>
            if x.id = s.id then { x with last_run := some w.now } else x) := by
  have h1 : execute_research_job w st s = update_last_run w st s.id w.now := by
    unfold execute_research_job add_to_outbox
    simp [hvalid, hengine, hfail]
  refine ⟨h1, ?_, ?_⟩
  · rw [h1]; unfold update_last_run; split <;> rfl
  · intro hu; rw [h1]; unfold update_last_run; rw [hu]; simp

/-- Witness for C9 at a concrete input: with the outbox insert failing, executing the
example schedule leaves the outbox empty yet sets its `last_run` to instant 3. -/
theorem execute_research_job_outbox_failure_witness :
    (execute_research_job exWorldOutboxDown exStore exSchedule).outbox = exStore.outbox ∧
      (execute_research_job exWorldOutboxDown exStore exSchedule).schedules =
        exStore.schedules.map fun x =>
          if x.id = exSchedule.id then { x with last_run := some exWorldOutboxDown.now }
          else x :=
  ⟨(execute_research_job_outbox_failure exWorldOutboxDown exStore exSchedule
      "result text" rfl (by decide) rfl).2.1,
    (execute_research_job_outbox_failure exWorldOutboxDown exStore exSchedule
      "result text" rfl (by decide) rfl).2.2 rfl⟩

/-- C10: `validate_prompt` rejects any prompt whose lowercased text contains a
disallowed term as a substring anywhere, regardless of word boundaries, and the
executor therefore never runs such a schedule: for every world and store the
execution leaves the store unchanged. -/
theorem validate_prompt_rejects_substring (p : String)
    (h : ∃ k ∈ forbidden_keywords, subList k.data (toLowerChars p.data) = true) :
    validate_prompt p = false ∧
      ∀ (w : World) (st : Store) (s : Schedule), s.prompt = p →
        execute_research_job w st s = st := by
  have hany :
      (forbidden_keywords.any fun keyword =>
        subList keyword.data (toLowerChars p.data)) = true := by
    obtain ⟨k, hk, hsub⟩ := h
    exact List.any_eq_true.mpr ⟨k, hk, hsub⟩
  have hv : validate_prompt p = false := by
    unfold validate_prompt
    rw [hany]
    split <;> rfl
  refine ⟨hv, ?_⟩
  intro w st s hs
  unfold execute_research_job
  rw [hs, hv]
  rfl

/-- Witness for C10 at a concrete input: a 38-character prompt mentioning
`"hackathon"` is rejected even though it is well above the minimum length and
otherwise harmless. -/
theorem validate_prompt_rejects_substring_witness :
    validate_prompt "Upcoming hackathon events in Europe 2025" = false :=
  (validate_prompt_rejects_substring "Upcoming hackathon events in Europe 2025"
    ⟨"hack", by decide, by decide⟩).1

/-! ## Claims about dispatching -/

/-- C5: one dispatcher cycle walks the snapshot of active schedules and treats each
independently: whatever the world does (engine failures, store-write failures
included), every due schedule of the snapshot is executed, in order, and the
returned count is exactly the number of due schedules.  A failure inside one
schedule's evaluation or execution is absorbed by that schedule's own handlers and
never removes a later schedule from the cycle. -/
theorem process_due_schedules_spec (w : World) (st : Store) :
    process_due_schedules w st =
      (((get_active_schedules st).filter fun s => is_schedule_due s w.now).foldl
          (fun acc s => execute_research_job w acc s) st,
        ((get_active_schedules st).filter fun s => is_schedule_due s w.now).length) := by
  have key : ∀ (l : List Schedule) (st0 : Store) (k : Nat),
      l.foldl
          (fun acc schedule =>
            if is_schedule_due schedule w.now then
              (execute_research_job w acc.1 schedule, acc.2 + 1)
            else acc)
          (st0, k)
        = ((l.filter fun s => is_schedule_due s w.now).foldl
              (fun acc s => execute_research_job w acc s) st0,
            k + (l.filter fun s => is_schedule_due s w.now).length) := by
    intro l
    induction l with
    | nil => intro st0 k; simp
    | cons s rest ih =>
      intro st0 k
      by_cases hd : is_schedule_due s w.now
      · simp only [List.foldl_cons, hd, if_true, List.filter_cons_of_pos, ih,
          List.length_cons]
        exact congrArg _ (by omega)
      · have hd' : is_schedule_due s w.now = false := by simpa using hd
        simp [List.foldl_cons, hd', ih, List.filter_cons]
  simpa using key (get_active_schedules st) st 0

/-! ## Claims about outbox delivery -/

theorem markDelivered_self {m : OutboxMessage} (h : m.delivered = true) :
    ({ m with delivered := true } : OutboxMessage) = m := by
  cases m
  simp_all

/-- Folding delivery over the store touches only the outbox. -/
theorem deliver_foldl_outbox (w : World) (l : List OutboxMessage) (st : Store) :
    l.foldl
        (fun acc m => if w.postSucceeds m.id then mark_message_delivered acc m.id else acc)
        st
      = { st with
          outbox := l.foldl
            (fun ob m =>
              if w.postSucceeds m.id then
                ob.map fun x => if x.id = m.id then { x with delivered := true } else x
              else ob)
            st.outbox } := by
  induction l generalizing st with
  | nil => rfl
  | cons m rest ih =>
    simp only [List.foldl_cons]
    by_cases hp : w.postSucceeds m.id
    · rw [if_pos hp, if_pos hp, ih]
      rfl
    · rw [if_neg hp, if_neg hp, ih]

/-- Marking every successfully posted message of `l`, one at a time, amounts to one
pass over the outbox: a message ends up delivered iff a successfully posted element
of `l` carries its id. -/
theorem foldl_mark_eq_map (post : Nat → Bool) (l : List OutboxMessage) :
    ∀ ob : List OutboxMessage,
      l.foldl
          (fun ob m =>
            if post m.id then
              ob.map fun x => if x.id = m.id then { x with delivered := true } else x
            else ob)
          ob
        = ob.map fun x =>
            if post x.id && l.any (fun m => m.id == x.id) then { x with delivered := true }
            else x := by
  induction l with
  | nil =>
    intro ob
    simp
  | cons m rest ih =>
    intro ob
    simp only [List.foldl_cons]
    by_cases hp : post m.id
    · rw [if_pos hp, ih, List.map_map]
      apply List.map_congr_left
      intro x _
      by_cases hx : x.id = m.id
      · have hbeq : (m.id == x.id) = true := by simp [hx]
        have hpost : post x.id = true := hx ▸ hp
        simp [Function.comp, hx, hbeq, hpost, hp, ite_self]
      · have hbeq : (m.id == x.id) = false := by
          simp [BEq.beq]
          omega
        simp only [Function.comp_apply, if_neg hx, List.any_cons, hbeq, Bool.false_or]
    · rw [if_neg hp, ih]
      apply List.map_congr_left
      intro x _
      by_cases hx : m.id = x.id
      · have hpost : post x.id = false := by
          rw [← hx]
          simpa using hp
        simp [hpost]
      · have hbeq : (m.id == x.id) = false := by simp [hx]
        simp [List.any_cons, hbeq]

/-- C6: a delivery run fetches exactly the undelivered outbox messages, in
`created_at` order, and attempts them in that order: afterwards a message is
delivered iff it already was or its post succeeded, and a message whose post failed
stays undelivered for the next cycle. -/
theorem deliver_outbox_messages_spec (w : World) (st : Store) :
    List.Sorted msgLE (get_undelivered_messages st) ∧
      (∀ m, m ∈ get_undelivered_messages st ↔ m ∈ st.outbox ∧ m.delivered = false) ∧
      (deliver_outbox_messages w st).outbox
        = st.outbox.map fun m =>
            if !m.delivered && w.postSucceeds m.id then { m with delivered := true }
            else m := by
  have hmem : ∀ m, m ∈ get_undelivered_messages st ↔ m ∈ st.outbox ∧ m.delivered = false := by
    intro m
    unfold get_undelivered_messages
    rw [List.mem_insertionSort]
    simp [List.mem_filter]
  refine ⟨List.sorted_insertionSort msgLE _, hmem, ?_⟩
  unfold deliver_outbox_messages
  rw [deliver_foldl_outbox, foldl_mark_eq_map]
  apply List.map_congr_left
  intro x hx
  by_cases hd : x.delivered
  · have h1 : (!x.delivered) = false := by simp [hd]
    rw [h1]
    by_cases hc :
        (w.postSucceeds x.id &&
          (get_undelivered_messages st).any fun m => m.id == x.id) = true
    · rw [if_pos hc, markDelivered_self hd]
      simp
    · rw [if_neg hc]
      simp
  · have hd' : x.delivered = false := by simpa using hd
    have hxf : x ∈ get_undelivered_messages st := (hmem x).mpr ⟨hx, hd'⟩
    have hany : ((get_undelivered_messages st).any fun m => m.id == x.id) = true :=
      List.any_eq_true.mpr ⟨x, hxf, by simp⟩
    simp [hany, hd']

/-! ## Claims about formatting -/

/-- C7 counterexample: the claim says every formatter variant maps `"Hello world"` to
exactly `"🔬 *Deep Research Results* 🔬\n\nHello world"`, but the variant in
src/openai_client.py produces a header whose microscope emoji is the four
double-encoded characters stored in that file, a different string. -/
theorem format_for_slack_v0_hello :
    format_for_slack_v0 "Hello world" =
        "ðŸ”¬ *Deep Research Results* ðŸ”¬\n\nHello world" ∧
      format_for_slack_v0 "Hello world" ≠
        "🔬 *Deep Research Results* 🔬\n\nHello world" := by
  constructor <;> decide

/-- C7 as amended: `format_for_slack` is a pure total function translating heading
and emphasis markers and prepending a fixed header, and the variant of
src/deep_slack/main.py maps the marker-free input `"Hello world"` to exactly
`"🔬 *Deep Research Results* 🔬\n\nHello world"` (the src/openai_client.py variant
produces the same text behind its double-encoded header). -/
theorem format_for_slack_hello :
    format_for_slack "Hello world" = "🔬 *Deep Research Results* 🔬\n\nHello world" := by
  decide

end DeepSlack
